import Mathlib

/-!
Verification of the `Weather_Analysis` repository's fetch engine and weather
caller against its specification.

The development shallowly embeds `Services.py`:

* `AsyncGetAPI` (class at `Services.py:298-398`): the bounded, rate-limited
  fetch engine.  Its mutable instance state (`requests_count`, `results`) is
  the structure `EngineState`, extended with instrumentation counters
  (`pauses` counts `time.sleep(60)` rate-window pauses, `issued` counts
  network attempts issued, `retry_sleeps` counts `asyncio.sleep(1)` retry
  delays).  The network is an oracle `Transport` mapping a url and a 0-based
  attempt index to `some payload` (the decoded JSON of a successful
  `session.get`) or `none` (the attempt raises).  `fetch` is the `for tries
  in range(10)` loop of `AsyncGetAPI.fetch`; `runQueue` drains the work
  queue, processing each url to completion as the single-threaded
  cooperative scheduler does.  Because the check-then-increment of
  `requests_count` has no await point inside it, it is atomic under the
  cooperative scheduler; `gateStep` is that atomic unit, so counter facts
  proved about sequences of `gateStep`s hold for every interleaving.
  Completion order across workers is modelled by running the queue in an
  arbitrary permutation of the url list.
* `OpenWeather` (class at `Services.py:189-295`): url construction
  (`create_api_ulr_list`) and result reduction (`sort_results`).
  Temperatures are modelled as `Int` (the claims depend only on their linear
  order), coordinates as the strings interpolated into the urls.
-/

/-- A transport oracle: for a url and a 0-based attempt index, either the
decoded JSON payload of a successful `session.get` (`some`), or `none` when
the attempt raises (timeout, connection refused, malformed body). -/
def Transport : Type := String → Nat → Option String

/-- The mutable state of an `AsyncGetAPI` instance (`Services.py:319-323`)
plus instrumentation counters for the sleeps the engine performs. -/
structure EngineState where
  /-- `self.requests_count`, the shared rate-budget counter. -/
  requests_count : Nat
  /-- `self.results`, a Python dict from url to decoded payload, modelled as
  an association list with first-insertion order and overwrite-on-repeat. -/
  results : List (String × String)
  /-- Number of `time.sleep(60)` rate-window pauses performed so far. -/
  pauses : Nat
  /-- Number of network attempts issued so far (each `session.get`). -/
  issued : Nat
  /-- Number of `await asyncio.sleep(1)` retry delays performed so far. -/
  retry_sleeps : Nat
deriving DecidableEq

/-- The state of a freshly constructed `AsyncGetAPI`
(`Services.py:322-323`): zero counters and an empty results dict. -/
def initState : EngineState := ⟨0, [], 0, 0, 0⟩

/-- Python dict assignment `d[k] = v`: overwrite the entry for `k` when it
exists (keeping its position), otherwise append a new entry. -/
def dictInsert (k v : String) : List (String × String) → List (String × String)
  | [] => [(k, v)]
  | (k', v') :: d => if k' = k then (k, v) :: d else (k', v') :: dictInsert k v d

/-- Python dict lookup `d.get(k)`. -/
def dictLookup (k : String) : List (String × String) → Option String
  | [] => none
  | (k', v') :: d => if k' = k then some v' else dictLookup k d

/-- `Services.py:387-389`: `if self.requests_count == self.max_requests:
time.sleep(60); self.requests_count = 0`.  In Python the comparison of the
`int` counter with `max_requests` is never true when `max_requests` is
`None`, which the `Option Nat` equality reproduces. -/
def rateGate (max_requests : Option Nat) (st : EngineState) : EngineState :=
  if some st.requests_count = max_requests then
    { st with requests_count := 0, pauses := st.pauses + 1 }
  else st

/-- `Services.py:391` followed by issuing the `session.get` attempt:
`self.requests_count += 1`. -/
def issue (st : EngineState) : EngineState :=
  { st with requests_count := st.requests_count + 1, issued := st.issued + 1 }

/-- One pass through the head of the loop body of `AsyncGetAPI.fetch`: the
rate gate followed by the counter increment.  No await point separates the
check from the increment, so this is one atomic step of the cooperative
scheduler. -/
def gateStep (max_requests : Option Nat) (st : EngineState) : EngineState :=
  issue (rateGate max_requests st)

/-- The `for tries in range(10)` loop of `AsyncGetAPI.fetch`
(`Services.py:386-398`), with `triesLeft` iterations remaining and `k` the
0-based index of the next attempt: gate and count, then try the transport;
on success store the payload under the url and break; on an exception sleep
1 and retry. -/
def fetch (max_requests : Option Nat) (t : Transport) (url : String) :
    Nat → Nat → EngineState → EngineState
  | 0, _, st => st
  | triesLeft + 1, k, st =>
    let st1 := gateStep max_requests st
    match t url k with
    | some v => { st1 with results := dictInsert url v st1.results }
    | none =>
        fetch max_requests t url triesLeft (k + 1)
          { st1 with retry_sleeps := st1.retry_sleeps + 1 }

/-- The work-queue drain of `AsyncGetAPI.main`/`worker`
(`Services.py:328-371`): each url in the queue is processed to completion by
`fetch` with the full budget of 10 tries.  The list order is the completion
order of the cooperative workers. -/
def runQueue (max_requests : Option Nat) (t : Transport) :
    List String → EngineState → EngineState
  | [], st => st
  | url :: rest, st => runQueue max_requests t rest (fetch max_requests t url 10 0 st)

/-- `Services.py:320`: `self.max_treads = max(max_workers, len(url_list))` —
the number of worker tasks the engine spawns. -/
def max_treads (max_workers : Nat) (url_count : Nat) : Nat :=
  max max_workers url_count

/-- The payload of the first successful attempt among the next `n` attempts
starting at attempt index `k`, or `none` when they all fail. -/
def firstSuccess (t : Transport) (url : String) : Nat → Nat → Option String
  | 0, _ => none
  | n + 1, k =>
    match t url k with
    | some v => some v
    | none => firstSuccess t url n (k + 1)

/-- The outcome of one url's `fetch` call: the payload of the first
successful attempt among its 10 tries, or `none` on exhaustion. -/
def fetchOutcome (t : Transport) (url : String) : Option String :=
  firstSuccess t url 10 0

/-- The number of network attempts the loop issues (counting the failing
ones) with `n` tries remaining starting at attempt index `k`. -/
def numAttempts (t : Transport) (url : String) : Nat → Nat → Nat
  | 0, _ => 0
  | n + 1, k =>
    match t url k with
    | some _ => 1
    | none => 1 + numAttempts t url n (k + 1)

/-- The number of failing attempts (each followed by an `asyncio.sleep(1)`)
with `n` tries remaining starting at attempt index `k`. -/
def numFailures (t : Transport) (url : String) : Nat → Nat → Nat
  | 0, _ => 0
  | n + 1, k =>
    match t url k with
    | some _ => 0
    | none => 1 + numFailures t url n (k + 1)

/-- Total attempts issued draining a whole url list. -/
def totalAttempts (t : Transport) (urls : List String) : Nat :=
  (urls.map fun u => numAttempts t u 10 0).sum

/-- One attempt with the exception made explicit: `session.get` plus
`response.json()` either produce a payload or raise a transport error. -/
def attemptE (t : Transport) (url : String) (k : Nat) : Except String String :=
  match t url k with
  | some v => Except.ok v
  | none => Except.error "transport error"

/-- `AsyncGetAPI.fetch` with the exception plumbing explicit: a value in the
`Except` monad, where an unhandled exception would surface as
`Except.error`.  The `try`/`except` of `Services.py:393-398` handles the
attempt's error by sleeping 1 and retrying. -/
def fetchE (max_requests : Option Nat) (t : Transport) (url : String) :
    Nat → Nat → EngineState → Except String EngineState
  | 0, _, st => Except.ok st
  | triesLeft + 1, k, st =>
    let st1 := gateStep max_requests st
    match attemptE t url k with
    | Except.ok v => Except.ok { st1 with results := dictInsert url v st1.results }
    | Except.error _ =>
        fetchE max_requests t url triesLeft (k + 1)
          { st1 with retry_sleeps := st1.retry_sleeps + 1 }

/-- Python dict equality (`==` on dicts): same keys mapped to same values,
insertion order ignored. -/
def tableEqv (d1 d2 : List (String × String)) : Prop :=
  ∀ k, dictLookup k d1 = dictLookup k d2

/-- An all-success transport determined by the url alone, as in the test
suite's mock (`tests/test_asyncgetapi.py`). -/
def okT : Transport := fun u _ => some ("Text of " ++ u)

/-- A transport whose every attempt fails. -/
def tFail : Transport := fun _ _ => none

/-- A transport that fails the first 9 attempts of any url and succeeds on
the 10th. -/
def tNinth : Transport := fun u k => if k = 9 then some ("Text of " ++ u) else none

/-- An engine state whose rate counter sits exactly at a capacity of 1. -/
def stCap : EngineState := ⟨1, [], 0, 0, 0⟩

/-! ### The `OpenWeather` caller (`Services.py:189-295`) -/

/-- The six urls `OpenWeather.create_api_ulr_list` builds for one location
(`Services.py:247-260`): one current-weather/forecast `onecall` url followed
by five `timemachine` urls for the 5 previous days. -/
def location_urls (api : String) (now : Int) (lat lon : String) : List String :=
  ("https://api.openweathermap.org/data/2.5/onecall?lat=" ++ lat ++ "&lon=" ++ lon ++
      "&exclude=hourly,minutely,alerts&units=metric&appid=" ++ api) ::
    (List.range' 1 5).map fun days =>
      "http://api.openweathermap.org/data/2.5/onecall/timemachine?lat=" ++ lat ++
        "&lon=" ++ lon ++ "&dt=" ++ toString (now - 86400 * (days : Int)) ++
        "&units=metric&appid=" ++ api

/-- `OpenWeather.create_api_ulr_list` (`Services.py:234-262`) over the
coordinate pairs of the locations dict. -/
def create_api_ulr_list (api : String) (now : Int)
    (locations : List (String × String)) : List String :=
  (locations.map fun loc => location_urls api now loc.1 loc.2).flatten

/-- One entry of a `onecall` response's `daily` array: its timestamp `dt`
and its `temp.min`/`temp.max`.  Temperatures are modelled as `Int`; the
claims depend only on their linear order. -/
structure DayTemp where
  dt : Int
  tmin : Int
  tmax : Int

/-- The current-weather/forecast response: its `daily` array.  The code
indexes entries 0 through 5, so the real response carries at least 6. -/
structure CurrentResp where
  daily : List DayTemp

/-- A `timemachine` (single-day historical) response: its `current.dt`
timestamp and the `temp` of each entry of its `hourly` array. -/
structure HistoryResp where
  current_dt : Int
  hourly : List Int

/-- Python `min` over a nonempty list (`min(temp)` at `Services.py:291`);
`min([])` raises in Python, and the code only applies it to the nonempty
`hourly` arrays, so the `[]` case is junk. -/
def list_min : List Int → Int
  | [] => 0
  | x :: xs => xs.foldl min x

/-- Python `max` over a nonempty list (`max(temp)` at `Services.py:291`). -/
def list_max : List Int → Int
  | [] => 0
  | x :: xs => xs.foldl max x

/-- The `city_result` list `OpenWeather.sort_results` builds for one
location (`Services.py:279-291`) before sorting: the first six `daily`
entries of the forecast response as `(dt, temp.min, temp.max)` triples,
then one `(current.dt, min(hourly), max(hourly))` triple per historical
response. -/
def city_result (cur : CurrentResp) (hist : List HistoryResp) :
    List (Int × Int × Int) :=
  ((cur.daily.take 6).map fun d => (d.dt, d.tmin, d.tmax)) ++
    hist.map fun w => (w.current_dt, list_min w.hourly, list_max w.hourly)

/-- The comparison `key=lambda x: x[0]` of `Services.py:293`: order triples
by their timestamp. -/
def leDt (a b : Int × Int × Int) : Bool :=
  decide (a.1 ≤ b.1)

/-- The per-location value `OpenWeather.sort_results` stores
(`Services.py:293`): `sorted(city_result, key=lambda x: x[0])`. -/
def sort_results (cur : CurrentResp) (hist : List HistoryResp) :
    List (Int × Int × Int) :=
  (city_result cur hist).mergeSort leDt

/-! ### Basic lemmas about the dict model -/

theorem dictLookup_dictInsert (q k v : String) :
    ∀ d : List (String × String),
      dictLookup q (dictInsert k v d) = if q = k then some v else dictLookup q d
  | [] => by
    by_cases h : q = k
    · simp [dictInsert, dictLookup, h]
    · simp [dictInsert, dictLookup, h, Ne.symm h]
  | (k0, v0) :: d => by
    by_cases h0 : k0 = k
    · by_cases h : q = k
      · simp [dictInsert, dictLookup, h0, h]
      · simp [dictInsert, dictLookup, h0, h, Ne.symm h]
    · by_cases h : q = k0
      · have hqk : ¬ q = k := fun he => h0 (h.symm.trans he)
        simp [dictInsert, dictLookup, h0, h, hqk]
      · have hk0q : ¬ k0 = q := fun he => h he.symm
        simp [dictInsert, dictLookup, h0, hk0q, dictLookup_dictInsert q k v d]

theorem dictInsert_keys (k v : String) :
    ∀ d : List (String × String),
      (dictInsert k v d).map Prod.fst =
        if k ∈ d.map Prod.fst then d.map Prod.fst else d.map Prod.fst ++ [k]
  | [] => by simp [dictInsert]
  | (k0, v0) :: d => by
    by_cases h0 : k0 = k
    · subst h0
      simp [dictInsert]
    · have hk : ¬ k = k0 := fun he => h0 he.symm
      by_cases hm : k ∈ d.map Prod.fst <;>
        simp [dictInsert, h0, hk, hm, dictInsert_keys k v d]

theorem dictInsert_keys_nodup (k v : String) (d : List (String × String))
    (h : (d.map Prod.fst).Nodup) : ((dictInsert k v d).map Prod.fst).Nodup := by
  rw [dictInsert_keys]
  by_cases hm : k ∈ d.map Prod.fst
  · simpa [hm] using h
  · simp [hm, List.nodup_append, h]

/-! ### Lemmas about the rate gate step -/

theorem rateGate_results (m : Option Nat) (st : EngineState) :
    (rateGate m st).results = st.results := by
  unfold rateGate; split <;> rfl

theorem gateStep_results (m : Option Nat) (st : EngineState) :
    (gateStep m st).results = st.results := by
  unfold gateStep issue; rw [rateGate_results]

theorem gateStep_issued (m : Option Nat) (st : EngineState) :
    (gateStep m st).issued = st.issued + 1 := by
  unfold gateStep issue rateGate; split <;> rfl

theorem gateStep_retry_sleeps (m : Option Nat) (st : EngineState) :
    (gateStep m st).retry_sleeps = st.retry_sleeps := by
  unfold gateStep issue rateGate; split <;> rfl

theorem rateGate_none (st : EngineState) : rateGate none st = st := by
  simp [rateGate]

theorem gateStep_none (st : EngineState) :
    gateStep none st =
      { st with requests_count := st.requests_count + 1, issued := st.issued + 1 } := by
  rw [gateStep, rateGate_none]; rfl

theorem gateStep_count_le (m : Nat) (hm : 1 ≤ m) (st : EngineState)
    (h : st.requests_count ≤ m) : (gateStep (some m) st).requests_count ≤ m := by
  by_cases hc : st.requests_count = m
  · simp [gateStep, issue, rateGate, hc]
    omega
  · have hne : ¬ some st.requests_count = some m := by simpa using hc
    simp only [gateStep, issue, rateGate, if_neg hne]
    omega

/-! ### Lemmas about one url's fetch loop -/

theorem fetch_results (m : Option Nat) (t : Transport) (u : String) :
    ∀ (n k : Nat) (st : EngineState),
      (fetch m t u n k st).results =
        match firstSuccess t u n k with
        | some v => dictInsert u v st.results
        | none => st.results
  | 0, k, st => by simp [fetch, firstSuccess]
  | n + 1, k, st => by
    cases h : t u k with
    | some v =>
        simp [fetch, firstSuccess, h, gateStep_results]
    | none =>
        simp only [fetch, firstSuccess, h]
        rw [fetch_results m t u n (k + 1)]
        simp [gateStep_results]

theorem fetch_count_le (m : Nat) (hm : 1 ≤ m) (t : Transport) (u : String) :
    ∀ (n k : Nat) (st : EngineState), st.requests_count ≤ m →
      (fetch (some m) t u n k st).requests_count ≤ m
  | 0, k, st, h => h
  | n + 1, k, st, h => by
    cases ht : t u k with
    | some v =>
        simpa [fetch, ht] using gateStep_count_le m hm st h
    | none =>
        simp only [fetch, ht]
        exact fetch_count_le m hm t u n (k + 1) _ (gateStep_count_le m hm st h)

theorem fetch_issued (m : Option Nat) (t : Transport) (u : String) :
    ∀ (n k : Nat) (st : EngineState),
      (fetch m t u n k st).issued = st.issued + numAttempts t u n k
  | 0, k, st => by simp [fetch, numAttempts]
  | n + 1, k, st => by
    cases ht : t u k with
    | some v => simp [fetch, numAttempts, ht, gateStep_issued]
    | none =>
        simp only [fetch, numAttempts, ht]
        rw [fetch_issued m t u n (k + 1)]
        simp [gateStep_issued]
        omega

theorem fetch_retry_sleeps (m : Option Nat) (t : Transport) (u : String) :
    ∀ (n k : Nat) (st : EngineState),
      (fetch m t u n k st).retry_sleeps = st.retry_sleeps + numFailures t u n k
  | 0, k, st => by simp [fetch, numFailures]
  | n + 1, k, st => by
    cases ht : t u k with
    | some v => simp [fetch, numFailures, ht, gateStep_retry_sleeps]
    | none =>
        simp only [fetch, numFailures, ht]
        rw [fetch_retry_sleeps m t u n (k + 1)]
        simp [gateStep_retry_sleeps]
        omega

theorem fetch_pauses_none (t : Transport) (u : String) :
    ∀ (n k : Nat) (st : EngineState), (fetch none t u n k st).pauses = st.pauses
  | 0, _, st => rfl
  | n + 1, k, st => by
    cases ht : t u k with
    | some v => simp [fetch, ht, gateStep_none]
    | none =>
        simp only [fetch, ht]
        rw [fetch_pauses_none t u n (k + 1)]
        simp [gateStep_none]

theorem fetch_count_none (t : Transport) (u : String) :
    ∀ (n k : Nat) (st : EngineState),
      (fetch none t u n k st).requests_count = st.requests_count + numAttempts t u n k
  | 0, k, st => by simp [fetch, numAttempts]
  | n + 1, k, st => by
    cases ht : t u k with
    | some v => simp [fetch, numAttempts, ht, gateStep_none]
    | none =>
        simp only [fetch, numAttempts, ht]
        rw [fetch_count_none t u n (k + 1)]
        simp [gateStep_none]
        omega

theorem fetchE_eq_ok (m : Option Nat) (t : Transport) (u : String) :
    ∀ (n k : Nat) (st : EngineState),
      fetchE m t u n k st = Except.ok (fetch m t u n k st)
  | 0, _, _ => rfl
  | n + 1, k, st => by
    cases ht : t u k with
    | some v => simp [fetchE, fetch, attemptE, ht]
    | none =>
        simp only [fetchE, fetch, attemptE, ht]
        exact fetchE_eq_ok m t u n (k + 1) _

theorem fetch_keys_nodup (m : Option Nat) (t : Transport) (u : String)
    (n k : Nat) (st : EngineState) (h : (st.results.map Prod.fst).Nodup) :
    (((fetch m t u n k st).results).map Prod.fst).Nodup := by
  rw [fetch_results]
  cases firstSuccess t u n k with
  | none => exact h
  | some v => exact dictInsert_keys_nodup u v st.results h

/-! ### Lemmas about draining the queue -/

theorem runQueue_lookup (m : Option Nat) (t : Transport) (q : String) :
    ∀ (urls : List String) (st : EngineState),
      dictLookup q (runQueue m t urls st).results =
        if q ∈ urls ∧ (fetchOutcome t q).isSome then fetchOutcome t q
        else dictLookup q st.results
  | [], st => by simp [runQueue]
  | u :: rest, st => by
    simp only [runQueue]
    rw [runQueue_lookup m t q rest]
    have hf : dictLookup q (fetch m t u 10 0 st).results =
        if q = u ∧ (fetchOutcome t u).isSome then fetchOutcome t u
        else dictLookup q st.results := by
      rw [fetch_results]
      cases h : firstSuccess t u 10 0 with
      | none => simp [fetchOutcome, h]
      | some v =>
          rw [dictLookup_dictInsert]
          by_cases hq : q = u <;> simp [fetchOutcome, hq, h]
    by_cases h1 : q ∈ rest ∧ (fetchOutcome t q).isSome
    · simp [h1, List.mem_cons, h1.1, h1.2]
    · rw [if_neg h1, hf]
      by_cases hq : q = u
      · subst hq
        by_cases hs : (fetchOutcome t q).isSome
        · simp [hs, List.mem_cons]
        · have : fetchOutcome t q = none := by
            cases hc : fetchOutcome t q with
            | none => rfl
            | some v => rw [hc] at hs; simp at hs
          simp [hs, this]
      · have hmem : (q ∈ u :: rest ∧ (fetchOutcome t q).isSome) ↔
            (q ∈ rest ∧ (fetchOutcome t q).isSome) := by
          simp [List.mem_cons, hq]
        rw [if_neg (fun hh => h1 (hmem.mp hh))]
        simp [hq]

theorem runQueue_count_le (m : Nat) (hm : 1 ≤ m) (t : Transport) :
    ∀ (urls : List String) (st : EngineState), st.requests_count ≤ m →
      (runQueue (some m) t urls st).requests_count ≤ m
  | [], _, h => h
  | u :: rest, st, h =>
    runQueue_count_le m hm t rest _ (fetch_count_le m hm t u 10 0 st h)

theorem runQueue_pauses_none (t : Transport) :
    ∀ (urls : List String) (st : EngineState),
      (runQueue none t urls st).pauses = st.pauses
  | [], _ => rfl
  | u :: rest, st => by
    simp only [runQueue]
    rw [runQueue_pauses_none t rest, fetch_pauses_none]

theorem runQueue_count_none (t : Transport) :
    ∀ (urls : List String) (st : EngineState),
      (runQueue none t urls st).requests_count =
        st.requests_count + totalAttempts t urls
  | [], st => by simp [runQueue, totalAttempts]
  | u :: rest, st => by
    simp only [runQueue]
    rw [runQueue_count_none t rest, fetch_count_none]
    simp [totalAttempts]
    omega

theorem runQueue_keys_nodup (m : Option Nat) (t : Transport) :
    ∀ (urls : List String) (st : EngineState),
      (st.results.map Prod.fst).Nodup →
      (((runQueue m t urls st).results).map Prod.fst).Nodup
  | [], _, h => h
  | u :: rest, st, h =>
    runQueue_keys_nodup m t rest _ (fetch_keys_nodup m t u 10 0 st h)

/-! ### Further helper lemmas -/

theorem firstSuccess_all_fail (t : Transport) (u : String) :
    ∀ (n k : Nat), (∀ j, j < n → t u (k + j) = none) → firstSuccess t u n k = none
  | 0, _, _ => rfl
  | n + 1, k, h => by
    have h0 : t u k = none := by simpa using h 0 (by omega)
    simp only [firstSuccess, h0]
    exact firstSuccess_all_fail t u n (k + 1) fun j hj => by
      rw [show k + 1 + j = k + (j + 1) by omega]
      exact h (j + 1) (by omega)

theorem firstSuccess_succeeds_at (t : Transport) (u : String) :
    ∀ (n k j : Nat) (v : String), j < n → (∀ i, i < j → t u (k + i) = none) →
      t u (k + j) = some v → firstSuccess t u n k = some v
  | 0, _, _, _, hj, _, _ => absurd hj (by omega)
  | n + 1, k, j, v, hj, hfail, hsucc => by
    cases j with
    | zero =>
        have h0 : t u k = some v := by simpa using hsucc
        simp [firstSuccess, h0]
    | succ j' =>
        have h0 : t u k = none := by simpa using hfail 0 (by omega)
        simp only [firstSuccess, h0]
        exact firstSuccess_succeeds_at t u n (k + 1) j' v (by omega)
          (fun i hi => by
            rw [show k + 1 + i = k + (i + 1) by omega]
            exact hfail (i + 1) (by omega))
          (by rw [show k + 1 + j' = k + (j' + 1) by omega]; exact hsucc)

theorem numAttempts_pos (t : Transport) (u : String) (n k : Nat) :
    1 ≤ numAttempts t u (n + 1) k := by
  cases h : t u k with
  | some v => simp [numAttempts, h]
  | none => simp [numAttempts, h]

theorem runQueue_lookup_init (m : Option Nat) (t : Transport)
    (urls : List String) (q : String) :
    dictLookup q (runQueue m t urls initState).results =
      if q ∈ urls then fetchOutcome t q else none := by
  rw [runQueue_lookup]
  by_cases hmem : q ∈ urls
  · by_cases hs : (fetchOutcome t q).isSome
    · simp [hmem, hs]
    · have hn : fetchOutcome t q = none := by
        cases hc : fetchOutcome t q with
        | none => rfl
        | some v => rw [hc] at hs; simp at hs
      simp [hmem, hs, hn, initState, dictLookup]
  · simp [hmem, initState, dictLookup]

theorem create_api_ulr_list_length (api : String) (now : Int) :
    ∀ locations : List (String × String),
      (create_api_ulr_list api now locations).length = 6 * locations.length
  | [] => rfl
  | loc :: rest => by
    have ih := create_api_ulr_list_length api now rest
    have h6 : (location_urls api now loc.1 loc.2).length = 6 := rfl
    simp only [create_api_ulr_list, List.map_cons, List.flatten_cons,
      List.length_append, List.length_cons] at ih ⊢
    omega

/-! ### The claims -/

/-- Claim C1, as stated, is false: with one descriptor whose every attempt
fails (and concurrency 1), the fetch call returns with no entry at all for
that descriptor — the slot is left unset, not marked as an explicit
failure. -/
theorem C1_every_descriptor_entry_counterexample :
    ("u" ∈ (["u"] : List String)) ∧
      (runQueue none tFail ["u"] initState).results = [] ∧
      dictLookup "u" (runQueue none tFail ["u"] initState).results = none := by
  decide

/-- Claim C1 (amended): after the fetch call returns, a descriptor's slot
holds the payload of its first successful attempt when one of its 10
attempts succeeds; a descriptor whose attempts are all exhausted is missing
from the table (no entry), and no other keys appear.  In particular no
descriptor is dropped while still pending — each one is processed to
completion. -/
theorem C1_every_descriptor_entry (m : Option Nat) (t : Transport)
    (urls : List String) (q : String) :
    dictLookup q (runQueue m t urls initState).results =
      if q ∈ urls then fetchOutcome t q else none :=
  runQueue_lookup_init m t urls q

/-- Claim C2: the code contradicts it (and its own class docstring, "takes
the less"): `AsyncGetAPI.__init__` computes `max(max_workers,
len(url_list))`, so with 3 urls and a concurrency limit of 2 it spawns 3
workers, not `min(2, 3) = 2`, and with an empty url list it spawns 2
workers, not zero. -/
theorem C2_worker_count_bug :
    max_treads 2 (["u1", "u2", "u3"] : List String).length = 3 ∧
      min 2 (["u1", "u2", "u3"] : List String).length = 2 ∧
      max_treads 2 ([] : List String).length = 2 := by
  decide

/-- Claim C3: a descriptor whose transport fails on attempts 0 through 8 and
succeeds on attempt 9 (the 10th try) ends up with the 10th attempt's payload
stored under its url; one that fails all 10 attempts ends up with its slot
left unset — missing from the results table — and the call returns rather
than raising. -/
theorem C3_retry_ceiling (t1 t2 : Transport) (u v : String)
    (h9 : ∀ k, k < 9 → t1 u k = none) (h10 : t1 u 9 = some v)
    (hall : ∀ k, k < 10 → t2 u k = none) :
    dictLookup u (runQueue none t1 [u] initState).results = some v ∧
    dictLookup u (runQueue none t2 [u] initState).results = none := by
  have ho1 : fetchOutcome t1 u = some v :=
    firstSuccess_succeeds_at t1 u 10 0 9 v (by omega)
      (fun i hi => by simpa using h9 i hi) (by simpa using h10)
  have ho2 : fetchOutcome t2 u = none :=
    firstSuccess_all_fail t2 u 10 0 fun j hj => by simpa using hall j hj
  constructor
  · rw [runQueue_lookup_init]
    simp [ho1]
  · rw [runQueue_lookup_init]
    simp [ho2]

/-- Witness for C3 at a concrete transport that fails attempts 0-8 of every
url and succeeds on attempt 9, and one that always fails. -/
theorem C3_retry_ceiling_witness :
    (∀ k, k < 9 → tNinth "u" k = none) ∧ tNinth "u" 9 = some "Text of u" ∧
      (∀ k, k < 10 → tFail "u" k = none) ∧
      (dictLookup "u" (runQueue none tNinth ["u"] initState).results =
          some "Text of u" ∧
        dictLookup "u" (runQueue none tFail ["u"] initState).results = none) :=
  ⟨by decide, by decide, by decide,
    C3_retry_ceiling tNinth tFail "u" "Text of u" (by decide) (by decide) (by decide)⟩

/-- Claim C4: for a rate limit of `mr ≥ 1` requests per window, the shared
counter never exceeds `mr` over an entire run; every gate-and-increment step
counts one more issued attempt (the counter is bumped before the attempt,
also when the attempt then fails — `issued` counts failing attempts too, by
`fetch_issued` applied to any transport); and when the counter has reached
`mr` the gate pauses all workers (the blocking `time.sleep(60)`) and resets
the counter to zero before the attempt proceeds. -/
theorem C4_rate_budget (mr : Nat) (hm : 1 ≤ mr) (t : Transport) (u : String)
    (urls : List String) (n k : Nat) (st : EngineState)
    (hst : st.requests_count ≤ mr) :
    (runQueue (some mr) t urls initState).requests_count ≤ mr ∧
      (fetch (some mr) t u n k st).requests_count ≤ mr ∧
      (fetch (some mr) t u n k st).issued = st.issued + numAttempts t u n k ∧
      (gateStep (some mr) st).issued = st.issued + 1 ∧
      (st.requests_count = mr →
        rateGate (some mr) st =
          { st with requests_count := 0, pauses := st.pauses + 1 }) := by
  refine ⟨runQueue_count_le mr hm t urls initState (Nat.zero_le mr),
    fetch_count_le mr hm t u n k st hst,
    fetch_issued (some mr) t u n k st,
    gateStep_issued (some mr) st, ?_⟩
  intro hc
  simp [rateGate, hc]

/-- Witness for C4: budget 1, an always-failing transport (failing attempts
still consume quota), and a state whose counter sits at the capacity. -/
theorem C4_rate_budget_witness :
    1 ≤ 1 ∧
      ((runQueue (some 1) tFail ["u"] initState).requests_count ≤ 1 ∧
        (fetch (some 1) tFail "u" 10 0 stCap).requests_count ≤ 1 ∧
        (fetch (some 1) tFail "u" 10 0 stCap).issued =
          stCap.issued + numAttempts tFail "u" 10 0 ∧
        (gateStep (some 1) stCap).issued = stCap.issued + 1 ∧
        (stCap.requests_count = 1 →
          rateGate (some 1) stCap =
            { stCap with requests_count := 0, pauses := stCap.pauses + 1 })) :=
  ⟨Nat.le_refl 1,
    C4_rate_budget 1 (Nat.le_refl 1) tFail "u" ["u"] 10 0 stCap (Nat.le_refl 1)⟩

/-- Claim C5, as stated, is false: the results table is a dict keyed by the
url string, so an input with the same descriptor twice ends up with a single
slot, not two independent slots — the run over `["u", "u"]` under an
all-success transport produces a one-entry table. -/
theorem C5_independent_slots_counterexample :
    (runQueue none okT ["u", "u"] initState).results = [("u", "Text of u")] ∧
      (runQueue none okT ["u", "u"] initState).results.length ≠ 2 := by
  decide

/-- Claim C5 (amended): repeated occurrences of a descriptor are implicitly
deduplicated into one slot keyed by descriptor value: the table's keys are
unique, and a run whose input repeats a descriptor is table-equal to the run
with the repetition removed. -/
theorem C5_single_slot_per_descriptor (m : Option Nat) (t : Transport)
    (u q : String) (urls : List String) :
    (((runQueue m t (u :: u :: urls) initState).results).map Prod.fst).Nodup ∧
      dictLookup q (runQueue m t (u :: u :: urls) initState).results =
        dictLookup q (runQueue m t (u :: urls) initState).results := by
  constructor
  · exact runQueue_keys_nodup m t (u :: u :: urls) initState (by simp [initState])
  · rw [runQueue_lookup_init, runQueue_lookup_init]
    have hmem : (q ∈ u :: u :: urls) ↔ (q ∈ u :: urls) := by
      simp [List.mem_cons]
    by_cases h : q ∈ u :: urls
    · rw [if_pos (hmem.mpr h), if_pos h]
    · rw [if_neg (fun hh => h (hmem.mp hh)), if_neg h]

/-- Claim C6: the exception-explicit fetch loop always returns `ok` — no
transport failure propagates out of `fetch`, whatever the failure pattern of
the attempts; each caught failure performs one fixed retry delay
(`asyncio.sleep(1)`, counted by `retry_sleeps`) and continues with the next
attempt of the loop. -/
theorem C6_no_exception_escape (m : Option Nat) (t : Transport) (u : String)
    (n k : Nat) (st : EngineState) :
    fetchE m t u n k st = Except.ok (fetch m t u n k st) ∧
      (fetch m t u n k st).retry_sleeps = st.retry_sleeps + numFailures t u n k :=
  ⟨fetchE_eq_ok m t u n k st, fetch_retry_sleeps m t u n k st⟩

/-- Claim C7, as stated, is false: with a budget of 2 requests per window
and 5 descriptors under an all-success transport, the engine performs
exactly 2 pause/reset cycles before completion, not 3.  (The claim's own
formula gives ceil(5/2) - 1 = 2.) -/
theorem C7_pause_cycles_counterexample :
    (runQueue (some 2) okT ["u1", "u2", "u3", "u4", "u5"] initState).pauses = 2 ∧
      (runQueue (some 2) okT ["u1", "u2", "u3", "u4", "u5"] initState).pauses ≠ 3 := by
  decide

/-- Claim C7 (amended): with a budget of 2 per window and 5 descriptors
under an all-success transport, exactly 2 pause/reset cycles — ceil(5/2) - 1
— occur before the fetch call completes. -/
theorem C7_pause_cycles :
    (runQueue (some 2) okT ["u1", "u2", "u3", "u4", "u5"] initState).pauses = 2 ∧
      (2 : Nat) = (5 + 2 - 1) / 2 - 1 := by
  decide

/-- Claim C8: with an all-success transport whose payload is determined by
the url alone, any two completion orders of the same descriptor list (a
permutation) produce equal result tables (Python dict equality: same keys,
same values); in particular two runs on the identical list agree. -/
theorem C8_idempotent_fetch (m : Option Nat) (f : String → String)
    (urls1 urls2 : List String) (hperm : urls1.Perm urls2) :
    tableEqv (runQueue m (fun u _ => some (f u)) urls1 initState).results
      (runQueue m (fun u _ => some (f u)) urls2 initState).results := by
  intro q
  rw [runQueue_lookup_init, runQueue_lookup_init]
  by_cases h : q ∈ urls1
  · rw [if_pos h, if_pos (hperm.mem_iff.mp h)]
  · rw [if_neg h, if_neg fun hh => h (hperm.mem_iff.mpr hh)]

/-- Witness for C8 on the two completion orders of `["a", "b"]` and the test
suite's mock payload. -/
theorem C8_idempotent_fetch_witness :
    (["a", "b"] : List String).Perm ["b", "a"] ∧
      tableEqv
        (runQueue none (fun u _ => some ("Text of " ++ u)) ["a", "b"] initState).results
        (runQueue none (fun u _ => some ("Text of " ++ u)) ["b", "a"] initState).results :=
  ⟨List.Perm.swap "b" "a" [],
    C8_idempotent_fetch none (fun u => "Text of " ++ u) ["a", "b"] ["b", "a"]
      (List.Perm.swap "b" "a" [])⟩

/-- Claim C9: `OpenWeather` issues exactly six requests per location — the
per-location url group has length 6 (one `onecall` forecast url plus five
single-day `timemachine` urls) and the whole url list has length
`6 * number of locations` — and for each location `sort_results` reduces the
six responses to `(timestamp, min, max)` triples sorted by timestamp
ascending: the output is a permutation of the reduced triples and its
timestamps are pairwise nondecreasing. -/
theorem C9_six_requests_sorted_triples (api : String) (now : Int)
    (locations : List (String × String)) (lat lon : String)
    (cur : CurrentResp) (hist : List HistoryResp) :
    (location_urls api now lat lon).length = 6 ∧
      (create_api_ulr_list api now locations).length = 6 * locations.length ∧
      (sort_results cur hist).Perm (city_result cur hist) ∧
      List.Pairwise (fun a b : Int × Int × Int => a.1 ≤ b.1)
        (sort_results cur hist) := by
  refine ⟨rfl, create_api_ulr_list_length api now locations,
    List.mergeSort_perm (city_result cur hist) leDt, ?_⟩
  have h := @List.sorted_mergeSort (Int × Int × Int) leDt
    (fun a b c hab hbc => by
      simp only [leDt, decide_eq_true_eq] at hab hbc ⊢
      exact le_trans hab hbc)
    (fun a b => by
      simp only [leDt, Bool.or_eq_true, decide_eq_true_eq]
      exact le_total a.1 b.1)
    (city_result cur hist)
  exact h.imp fun hab => by simpa [leDt] using hab

/-- Claim C10: with `max_requests = None` the rate gate never fires — the
gate-and-increment step reduces to a bare increment (the `int`-vs-`None`
equality check is never true), a whole run performs zero 60-unit pauses, and
the counter ends equal to the total number of attempts issued, which is at
least the number of descriptors and so grows without bound with the input
list. -/
theorem C10_none_never_throttles (t : Transport) (urls : List String)
    (st : EngineState) :
    gateStep none st =
      { st with requests_count := st.requests_count + 1, issued := st.issued + 1 } ∧
      (runQueue none t urls initState).pauses = 0 ∧
      (runQueue none t urls initState).requests_count = totalAttempts t urls ∧
      urls.length ≤ totalAttempts t urls := by
  refine ⟨gateStep_none st, ?_, ?_, ?_⟩
  · rw [runQueue_pauses_none]
    rfl
  · rw [runQueue_count_none]
    exact Nat.zero_add _
  · induction urls with
    | nil => simp [totalAttempts]
    | cons u rest ih =>
        have h1 : 1 ≤ numAttempts t u 10 0 := numAttempts_pos t u 9 0
        simp only [totalAttempts, List.map_cons, List.sum_cons,
          List.length_cons] at ih ⊢
        omega
